import Mathlib

/-!
# Verification of the hybrid-dataset-factory pipeline

Shallow embedding of `src/dataset.py` and `src/dataset_factory.py`.

Conventions:
* Python floats are modelled as `ℚ`.
* Python's dynamically typed values (sample ids, queue items, call
  arguments) are modelled by `PyVal`.
* Randomness (`random.shuffle`, `random.choice`) is modelled by taking the
  shuffled listing and the sequence of choices as explicit inputs.
* Filesystem facts (`os.path.isfile`) are modelled by an explicit predicate
  on paths.
-/

/-- A dynamically typed Python value as it flows through the pipeline:
integer ids, `(index, thread_index)` tuples, renderer handles, strings and
`None` (the persistence sentinel / default arguments). -/
inductive PyVal
  | int : Nat → PyVal
  | pair : Nat → Nat → PyVal
  | projector : Nat → PyVal
  | str : String → PyVal
  | none : PyVal
deriving DecidableEq, Repr

/-- Truthiness of a `PyVal`, as Python's `not` sees it (`dataset_factory.py`
line 80 applies `not` to the value returned by `Dataset.load`). -/
def py_truthy : PyVal → Bool
  | .int n => n != 0
  | .pair _ _ => true
  | .projector _ => true
  | .str s => s ≠ ""
  | .none => false

/-- `BackgroundAnnotations` (dataset.py): a translation built from CSV fields
1..3 and an orientation built from fields 4 and onward.  The Python code
builds them with list comprehensions over slices, so both components are
lists of floats. -/
structure BackgroundAnnotations where
  translation : List ℚ
  orientation : List ℚ
deriving DecidableEq, Repr

/-- `BackgroundImage` (dataset.py): a full file path together with the parsed
annotations for that file. -/
structure BackgroundImage where
  file : String
  annotations : BackgroundAnnotations
deriving DecidableEq, Repr

/-- Errors surfaced by `Dataset.parse_annotations`: the `isfile` guard raises
"Annotations file not found", and `float(x)` on a malformed field raises
`ValueError` (the spec's `ParseError`). -/
inductive DatasetError
  | annotationsNotFound
  | parseError
deriving DecidableEq, Repr

/-- Python's `line.split(',')` on the underlying character list: split at
every comma, keeping empty pieces (so the result is never empty). -/
def splitCommaAux : List Char → List (List Char)
  | [] => [[]]
  | c :: rest =>
    let r := splitCommaAux rest
    if c == ',' then [] :: r
    else
      match r with
      | [] => [[c]]
      | h :: t => (c :: h) :: t

/-- Python's `str.split(',')`. -/
def pySplitComma (s : String) : List String :=
  (splitCommaAux s.data).map String.mk

/-- Python's `str.strip()`: drop whitespace from both ends. -/
def pyStrip (s : String) : String :=
  String.mk
    (((s.data.dropWhile Char.isWhitespace).reverse.dropWhile
        Char.isWhitespace).reverse)

/-- A Python list comprehension whose element expression can raise: the
first failing element aborts the whole list. -/
def pyMapM {α β : Type} (f : α → Option β) : List α → Option (List β)
  | [] => Option.some []
  | a :: l =>
    (f a).bind fun b => (pyMapM f l).bind fun bs => Option.some (b :: bs)

/-- One body line of `Dataset.parse_annotations`:
`items = line.split(',')`, key `items[0].strip()`, translation
`[float(x) for x in items[1:4]]`, orientation `[float(x) for x in items[4::]]`.
`pf` models Python's `float`, returning `none` on a malformed field. -/
def parseAnnotationLine (pf : String → Option ℚ) (line : String) :
    Option (String × BackgroundAnnotations) :=
  match pySplitComma line with
  | [] => Option.none
  | name :: rest =>
    (pyMapM pf (rest.take 3)).bind fun t =>
      (pyMapM pf (rest.drop 3)).bind fun q =>
        Option.some (pyStrip name, ⟨t, q⟩)

/-- A concrete numeral parser standing in for Python's `float` on the small
inputs used in examples: digits `1`-`7` parse, anything else fails. -/
def pfTable (s : String) : Option ℚ :=
  if s = "1" then Option.some 1
  else if s = "2" then Option.some 2
  else if s = "3" then Option.some 3
  else if s = "4" then Option.some 4
  else if s = "5" then Option.some 5
  else if s = "6" then Option.some 6
  else if s = "7" then Option.some 7
  else Option.none

/-- `Dataset.parse_annotations` (dataset.py lines 67-80): fails when the path
is not a file, discards the first line, and parses every remaining line with
`parseAnnotationLine`; the first malformed numeric field aborts the parse.
The resulting association list models the Python dict in insertion order. -/
def parse_annotations (pf : String → Option ℚ) (fileExists : Bool)
    (lines : List String) :
    Except DatasetError (List (String × BackgroundAnnotations)) :=
  if fileExists then
    match pyMapM (parseAnnotationLine pf) (lines.drop 1) with
    | Option.some entries => .ok entries
    | Option.none => .error .parseError
  else .error .annotationsNotFound

/-- `os.path.join(dir, name)` for the simple relative names produced by
`os.listdir`. -/
def fullPath (dir name : String) : String := dir ++ "/" ++ name

/-- The guard of both loops in `Dataset.load`:
`os.path.isfile(full_path) and full_path != annotations_path`. -/
def eligible (isFile : String → Bool) (dir annPath name : String) : Bool :=
  isFile (fullPath dir name) && !(fullPath dir name == annPath)

/-- The sampling-with-replacement loop of `Dataset.load` (lines 87-91):
`while count >= len(files)` draw a choice and append it when it is an
eligible regular file.  The random draws are supplied as the explicit list
`choices`; when they run out while the guard still holds, the Python loop
would keep spinning, so theorems about a completed `load` assume the exit
condition `count < length` of the result. -/
def extendFiles (isFile : String → Bool) (dir annPath : String) (count : Nat) :
    List String → List String → List String
  | [], files => files
  | c :: cs, files =>
    if count ≥ files.length then
      if eligible isFile dir annPath c then
        extendFiles isFile dir annPath count cs (files ++ [c])
      else
        extendFiles isFile dir annPath count cs files
    else files

/-- The observable outcome of `Dataset.load`: the queue contents (in
enqueue order) and the `not_found` tally. -/
structure LoadResult where
  staged : List BackgroundImage
  notFound : Nat
deriving DecidableEq, Repr

/-- The staging loop of `Dataset.load` (lines 95-102): every eligible file
with a matching annotation is enqueued as a `BackgroundImage`; an eligible
file absent from the mapping increments `not_found` and is skipped. -/
def stageFiles (isFile : String → Bool) (dir annPath : String)
    (ann : String → Option BackgroundAnnotations) : List String → LoadResult
  | [] => ⟨[], 0⟩
  | f :: fs =>
    let rest := stageFiles isFile dir annPath ann fs
    if eligible isFile dir annPath f then
      match ann f with
      | Option.none => ⟨rest.staged, rest.notFound + 1⟩
      | Option.some a => ⟨⟨fullPath dir f, a⟩ :: rest.staged, rest.notFound⟩
    else rest

/-- `Dataset.load` (dataset.py lines 82-109): the (already shuffled) listing
is extended by sampling with replacement while `count >= len(files)`, then
every entry of the extended list is staged against the annotation mapping
`ann` (the dict returned by `parse_annotations`). -/
def Dataset_load (isFile : String → Bool) (dir annPath : String)
    (ann : String → Option BackgroundAnnotations) (count : Nat)
    (listing choices : List String) : LoadResult :=
  stageFiles isFile dir annPath ann
    (extendFiles isFile dir annPath count choices listing)

/-- `Dataset.load` falls off the end of its body with no `return` statement,
so its Python return value is `None` whatever the loaded data was. -/
def load_py_return (_r : LoadResult) : PyVal := .none

/-- Python's `int()` on a float: truncation toward zero (floor for
nonnegative arguments, ceiling for negative ones). -/
def pyint (q : ℚ) : ℤ := if 0 ≤ q then ⌊q⌋ else ⌈q⌉

/-- `DatasetFactory.scale_coordinates` (dataset_factory.py lines 195-203),
value level: `int(c[0] * target[0] / base_width)` and
`int(c[1] * target[1] / base_height)`. -/
def scale_coordinates (base_width base_height : ℚ) (target : ℚ × ℚ)
    (c : ℚ × ℚ) : ℤ × ℤ :=
  (pyint (c.1 * target.1 / base_width), pyint (c.2 * target.2 / base_height))

/-- `DatasetFactory.get_blur_amount` (dataset_factory.py lines 220-227):
`blur_amount = variance_of_laplacian / self.max_blur_amount`, replaced by
`0.9` when `blur_amount > 1`, then inverted.  The variance of the Laplacian
and the threshold are the inputs; the image processing producing the
variance is external (OpenCV). -/
def get_blur_amount (variance_of_laplacian max_blur_amount : ℚ) : ℚ :=
  let blur_amount := variance_of_laplacian / max_blur_amount
  let blur_amount := if blur_amount > 1 then (9 : ℚ) / 10 else blur_amount
  1 - blur_amount

/-- The kernel-size selection of `DatasetFactory.apply_motion_blur`
(dataset_factory.py lines 242-247): `amount <= 0.3 -> 3`,
`elif amount <= 0.7 -> 5`, `else 9`. -/
def blur_kernel_size (amount : ℚ) : Nat :=
  if amount ≤ 3 / 10 then 3 else if amount ≤ 7 / 10 then 5 else 9

/-- An image as a total pixel map (border handling of `cv2.filter2D` is
immaterial away from the border; we model the infinite canvas). -/
abbrev Img := ℤ → ℤ → ℚ

/-- `np.identity(size)` as an entrywise function. -/
def np_identity (i j : Nat) : ℚ := if i = j then 1 else 0

/-- `cv2.filter2D(cv_img, -1, kernel)`: correlation of the image with an
`s × s` kernel anchored at its centre `(s/2, s/2)`. -/
def filter2D (s : Nat) (k : Nat → Nat → ℚ) (img : Img) : Img := fun x y =>
  ∑ i ∈ Finset.range s, ∑ j ∈ Finset.range s,
    k i j * img (x + i - (s / 2 : Nat)) (y + j - (s / 2 : Nat))

/-- `DatasetFactory.apply_motion_blur` (dataset_factory.py lines 236-251):
when `no_blur` is set the image is returned unconvolved; otherwise the image
is convolved with `np.identity(size) / size` for the selected size. -/
def apply_motion_blur (no_blur : Bool) (amount : ℚ) (img : Img) : Img :=
  if no_blur then img
  else
    filter2D (blur_kernel_size amount)
      (fun i j => np_identity i j / (blur_kernel_size amount : ℚ)) img

/-- A call to the bound method `DatasetFactory.generate(self, index,
projector)`: Python raises `TypeError` unless exactly the two positional
parameters are supplied.  On success the body enqueues
`AnnotatedImage(output, index, ...)` — the id attached to the emitted sample
is the `index` argument unchanged — and that id is returned here. -/
def generate_call (args : List PyVal) : Except String PyVal :=
  match args with
  | [index, _projector] => .ok index
  | _ => .error "TypeError: generate() missing 1 required positional argument"

/-- The sequential strategy `DatasetFactory.run` (lines 105-108):
`for i in range(self.count): self.generate(i, projector)`. -/
def run_generate_results (count : Nat) : List (Except String PyVal) :=
  (List.range count).map (fun i => generate_call [.int i, .projector 0])

/-- The argument list built by `DatasetFactory.run_multi_threaded`
(line 136): `zip(range(max_), max_ * list(range(self.nb_threads)))`, each
element a single `(index, thread_index)` tuple. -/
def run_multi_threaded_arg_list (count nb_threads : Nat) : List PyVal :=
  ((List.range count).zip
      (List.flatten (List.replicate count (List.range nb_threads)))).map
    (fun p => .pair p.1 p.2)

/-- `p.imap_unordered(self.generate, args)` (lines 137-138) applies
`self.generate` to each element of `args` as its single argument. -/
def run_multi_threaded_results (count nb_threads : Nat) :
    List (Except String PyVal) :=
  (run_multi_threaded_arg_list count nb_threads).map
    (fun a => generate_call [a])

/-- How a `Dataset._save_one` worker leaves its loop. -/
inductive WorkerExit
  | queueEmpty
  | attributeError
deriving DecidableEq, Repr

/-- `Dataset._save_one` (dataset.py lines 123-129): loop while the queue is
non-empty, dequeue, and call `.image.save(...)` on the item.  A dequeued
`None` (the sentinel) has no `image` attribute, so the worker dies with
`AttributeError`; it never tests for the sentinel.  Returns the ids written
before the loop ended and how it ended. -/
def save_one : List PyVal → List PyVal × WorkerExit
  | [] => ([], .queueEmpty)
  | .none :: _ => ([], .attributeError)
  | v :: rest =>
    let r := save_one rest
    (v :: r.1, r.2)

/-- A call to the bound method `Dataset.save(self, nb_threads)`: exactly one
positional argument is required.  `DatasetFactory.run` starts its writer as
`Thread(target=self.generated_dataset.save)`, which calls it with none. -/
def save_call (args : List PyVal) : Except String Unit :=
  match args with
  | [_nb_threads] => .ok ()
  | _ => .error "TypeError: save() missing 1 required positional argument"

/-- A call to `Dataset.__init__(self, path)`: exactly one positional
argument.  `DatasetFactory.__init__` calls `Dataset(args.dataset,
args.seed)` (line 79), supplying two. -/
def dataset_init_call (args : List PyVal) : Except String Unit :=
  match args with
  | [_path] => .ok ()
  | _ => .error "TypeError: __init__() takes 2 positional arguments but 3 were given"

/-- The load guard in `DatasetFactory.__init__` (lines 80-84):
`if not self.background_dataset.load(...): sys.exit(1)`, applied to the
value `load` actually returns. -/
def factory_init_exit (r : LoadResult) : Except Nat Unit :=
  if py_truthy (load_py_return r) then .ok () else .error 1

/-! ## Heap model of the in-place bounding-box scaling

`scale_coordinates` assigns `coordinates[0]` and `coordinates[1]` and
returns `coordinates` itself, and the loop in `generate` (lines 166-177)
rebinds each bbox field to the returned object after aliasing
`scaled_bbox = bbox`.  Coordinate objects live at addresses in a heap. -/

abbrev Addr := Nat

/-- A bounding-box dict as `generate` sees it: a class id and references to
its four mutable coordinate objects. -/
structure BBoxRef where
  class_id : Nat
  minA : Addr
  maxA : Addr
  normalOriginA : Addr
  normalEndA : Addr
deriving DecidableEq, Repr

/-- `DatasetFactory.scale_coordinates`, heap level: overwrite the pair at
address `a` with the scaled integer values and return the same address. -/
def scale_coordinates_heap (bw bh : ℚ) (target : ℚ × ℚ)
    (h : Addr → ℚ × ℚ) (a : Addr) : (Addr → ℚ × ℚ) × Addr :=
  (Function.update h a
      (((scale_coordinates bw bh target (h a)).1 : ℚ),
       ((scale_coordinates bw bh target (h a)).2 : ℚ)), a)

/-- One iteration of the scaling loop in `generate`: scale `min` and `max`,
and — for classes other than 2 — the normal's `origin` and `end`, rebinding
each field to the address `scale_coordinates` returned. -/
def scale_bbox_step (bw bh : ℚ) (target : ℚ × ℚ) (h : Addr → ℚ × ℚ)
    (b : BBoxRef) : (Addr → ℚ × ℚ) × BBoxRef :=
  let r1 := scale_coordinates_heap bw bh target h b.minA
  let r2 := scale_coordinates_heap bw bh target r1.1 b.maxA
  if b.class_id ≠ 2 then
    let r3 := scale_coordinates_heap bw bh target r2.1 b.normalOriginA
    let r4 := scale_coordinates_heap bw bh target r3.1 b.normalEndA
    (r4.1, { b with minA := r1.2, maxA := r2.2,
                    normalOriginA := r3.2, normalEndA := r4.2 })
  else
    (r2.1, { b with minA := r1.2, maxA := r2.2 })

/-- The whole scaling loop of `generate`: fold `scale_bbox_step` over the
renderer's bounding boxes, collecting the `scaled_bboxes` list. -/
def generate_scale_loop (bw bh : ℚ) (target : ℚ × ℚ) :
    (Addr → ℚ × ℚ) → List BBoxRef → (Addr → ℚ × ℚ) × List BBoxRef
  | h, [] => (h, [])
  | h, b :: bs =>
    let r := scale_bbox_step bw bh target h b
    let rest := generate_scale_loop bw bh target r.1 bs
    (rest.1, r.2 :: rest.2)

/-! ## Lemmas about `Dataset.load` -/

theorem extendFiles_append (isFile : String → Bool) (dir annPath : String)
    (count : Nat) :
    ∀ (cs files : List String), ∃ extra,
      extendFiles isFile dir annPath count cs files = files ++ extra ∧
        ∀ e ∈ extra, eligible isFile dir annPath e = true ∧ e ∈ cs := by
  intro cs
  induction cs with
  | nil => exact fun files => ⟨[], by simp [extendFiles], by simp⟩
  | cons c cs ih =>
    intro files
    simp only [extendFiles]
    by_cases hc : count ≥ files.length
    · rw [if_pos hc]
      by_cases he : eligible isFile dir annPath c = true
      · rw [if_pos he]
        obtain ⟨extra, h1, h2⟩ := ih (files ++ [c])
        refine ⟨c :: extra, ?_, ?_⟩
        · rw [h1]; simp
        · intro e hmc
          rcases List.mem_cons.mp hmc with rfl | hmem
          · exact ⟨he, List.mem_cons_self _ _⟩
          · exact ⟨(h2 e hmem).1, List.mem_cons_of_mem _ (h2 e hmem).2⟩
      · rw [if_neg he]
        obtain ⟨extra, h1, h2⟩ := ih files
        exact ⟨extra, h1, fun e hmem =>
          ⟨(h2 e hmem).1, List.mem_cons_of_mem _ (h2 e hmem).2⟩⟩
    · rw [if_neg hc]
      exact ⟨[], by simp, by simp⟩

theorem extendFiles_no_extend (isFile : String → Bool) (dir annPath : String)
    (count : Nat) (cs files : List String) (h : count < files.length) :
    extendFiles isFile dir annPath count cs files = files := by
  cases cs with
  | nil => rfl
  | cons c cs => simp [extendFiles, Nat.not_le.mpr h]

theorem stageFiles_length_add_notFound (isFile : String → Bool)
    (dir annPath : String) (ann : String → Option BackgroundAnnotations) :
    ∀ l : List String,
      (stageFiles isFile dir annPath ann l).staged.length +
          (stageFiles isFile dir annPath ann l).notFound =
        l.countP (eligible isFile dir annPath) := by
  intro l
  induction l with
  | nil => simp [stageFiles]
  | cons f fs ih =>
    simp only [stageFiles, List.countP_cons]
    by_cases he : eligible isFile dir annPath f = true
    · cases hann : ann f with
      | none => simp [he, hann]; omega
      | some a => simp [he, hann]; omega
    · simp [he, ih]

theorem stageFiles_notFound (isFile : String → Bool) (dir annPath : String)
    (ann : String → Option BackgroundAnnotations) :
    ∀ l : List String,
      (stageFiles isFile dir annPath ann l).notFound =
        l.countP (fun f => eligible isFile dir annPath f && (ann f).isNone) := by
  intro l
  induction l with
  | nil => simp [stageFiles]
  | cons f fs ih =>
    simp only [stageFiles, List.countP_cons]
    by_cases he : eligible isFile dir annPath f = true
    · cases hann : ann f with
      | none => simp [he, hann, ih]
      | some a => simp [he, hann, ih]
    · simp [he, ih]

theorem stageFiles_pose (isFile : String → Bool) (dir annPath : String)
    (ann : String → Option BackgroundAnnotations) :
    ∀ l : List String,
      ∀ img ∈ (stageFiles isFile dir annPath ann l).staged,
        ∃ name, name ∈ l ∧ img.file = fullPath dir name ∧
          ann name = Option.some img.annotations := by
  intro l
  induction l with
  | nil => simp [stageFiles]
  | cons f fs ih =>
    intro img hmem
    by_cases he : eligible isFile dir annPath f = true
    · cases hann : ann f with
      | none =>
        simp only [stageFiles, if_pos he, hann] at hmem
        obtain ⟨name, h1, h2, h3⟩ := ih img hmem
        exact ⟨name, List.mem_cons_of_mem _ h1, h2, h3⟩
      | some a =>
        simp only [stageFiles, if_pos he, hann, List.mem_cons] at hmem
        rcases hmem with rfl | hmem
        · exact ⟨f, List.mem_cons_self _ _, rfl, hann⟩
        · obtain ⟨name, h1, h2, h3⟩ := ih img hmem
          exact ⟨name, List.mem_cons_of_mem _ h1, h2, h3⟩
    · simp only [stageFiles, if_neg he] at hmem
      obtain ⟨name, h1, h2, h3⟩ := ih img hmem
      exact ⟨name, List.mem_cons_of_mem _ h1, h2, h3⟩

theorem countP_bool_not_add (p : String → Bool) (l : List String) :
    l.countP (fun a => !(p a)) + l.countP p = l.length := by
  induction l with
  | nil => simp
  | cons a l ih =>
    by_cases h : p a = true <;> simp only [List.countP_cons, h] <;> simp <;> omega

/-! ## C1: queue population after `Dataset.load` -/

/-- C1, counterexample.  With listing `["a", "b"]` where `"b"` is the
annotations file and `"a"` has no annotation entry, `Dataset.load` with
`count = 1` finishes (the replacement loop never runs since `1 < 2`) yet
stages no entry at all: the staged queue holds fewer than `count` entries. -/
theorem C1_counterexample :
    (Dataset_load (fun _ => true) "d" "d/b" (fun _ => Option.none) 1
      ["a", "b"] []).staged.length < 1 := by decide

/-- C1, amended.  Every staged entry always carries a pose taken from the
annotation mapping; and the staged queue holds at least `count` entries
provided (i) the replacement choices are drawn from the listing, (ii) the
`while count >= len(files)` loop exited, (iii) every eligible listed file
has an annotation entry, and (iv) at most one listing entry is non-eligible
(in the intended layout, only the annotations file itself).  Without
(iii)/(iv) the queue can be shorter than `count` (see the counterexample). -/
theorem C1_load_staged_amended
    (isFile : String → Bool) (dir annPath : String)
    (ann : String → Option BackgroundAnnotations) (count : Nat)
    (listing choices : List String)
    (hch : ∀ c ∈ choices, c ∈ listing)
    (hterm : count <
      (extendFiles isFile dir annPath count choices listing).length)
    (hmatch : ∀ f ∈ listing,
      eligible isFile dir annPath f = true → (ann f).isSome = true)
    (hone : listing.countP (fun f => !(eligible isFile dir annPath f)) ≤ 1) :
    count ≤
        (Dataset_load isFile dir annPath ann count listing choices).staged.length ∧
      ∀ img ∈ (Dataset_load isFile dir annPath ann count listing choices).staged,
        ∃ name, img.file = fullPath dir name ∧
          ann name = Option.some img.annotations := by
  obtain ⟨extra, hfe, hex⟩ :=
    extendFiles_append isFile dir annPath count choices listing
  have hmatch' : ∀ f ∈ extendFiles isFile dir annPath count choices listing,
      eligible isFile dir annPath f = true → (ann f).isSome = true := by
    intro f hf he
    rw [hfe] at hf
    rcases List.mem_append.mp hf with h | h
    · exact hmatch f h he
    · exact hmatch f (hch f (hex f h).2) he
  constructor
  · have hnf :
        (Dataset_load isFile dir annPath ann count listing choices).notFound
          = 0 := by
      rw [Dataset_load, stageFiles_notFound]
      refine List.countP_eq_zero.mpr ?_
      intro f hf
      simp only [Bool.and_eq_true, not_and]
      intro he hnone
      have := hmatch' f hf he
      simp [Option.isNone_iff_eq_none.mp hnone] at this
    have hlen := stageFiles_length_add_notFound isFile dir annPath ann
      (extendFiles isFile dir annPath count choices listing)
    have hsplit := countP_bool_not_add (eligible isFile dir annPath)
      (extendFiles isFile dir annPath count choices listing)
    have hnel :
        (extendFiles isFile dir annPath count choices listing).countP
            (fun f => !(eligible isFile dir annPath f)) ≤ 1 := by
      rw [hfe, List.countP_append]
      have : extra.countP (fun f => !(eligible isFile dir annPath f)) = 0 :=
        List.countP_eq_zero.mpr (fun e hmem => by simp [(hex e hmem).1])
      omega
    rw [Dataset_load] at hnf ⊢
    omega
  · intro img hmem
    obtain ⟨name, _, h2, h3⟩ :=
      stageFiles_pose isFile dir annPath ann
        (extendFiles isFile dir annPath count choices listing) img hmem
    exact ⟨name, h2, h3⟩

/-- C1, witness: a directory listing `["a", "ann"]` whose only non-eligible
entry is the annotations file, an annotation mapping covering everything,
`count = 2`, and replacement choices `["a", "a"]`. -/
theorem C1_load_staged_amended_witness :
    (∀ c ∈ ["a", "a"], c ∈ ["a", "ann"]) ∧
      2 < (extendFiles (fun _ => true) "d" "d/ann" 2 ["a", "a"]
            ["a", "ann"]).length ∧
      (∀ f ∈ ["a", "ann"], eligible (fun _ => true) "d" "d/ann" f = true →
        ((fun _ : String => Option.some
            (⟨[0, 0, 0], [0, 0, 0, 1]⟩ : BackgroundAnnotations)) f).isSome = true) ∧
      (List.countP (fun f => !(eligible (fun _ => true) "d" "d/ann" f))
          ["a", "ann"] ≤ 1) ∧
      (2 ≤ (Dataset_load (fun _ => true) "d" "d/ann"
          (fun _ => Option.some ⟨[0, 0, 0], [0, 0, 0, 1]⟩) 2
          ["a", "ann"] ["a", "a"]).staged.length ∧
        ∀ img ∈ (Dataset_load (fun _ => true) "d" "d/ann"
            (fun _ => Option.some ⟨[0, 0, 0], [0, 0, 0, 1]⟩) 2
            ["a", "ann"] ["a", "a"]).staged,
          ∃ name, img.file = fullPath "d" name ∧
            (fun _ : String => Option.some
              (⟨[0, 0, 0], [0, 0, 0, 1]⟩ : BackgroundAnnotations)) name =
              Option.some img.annotations) :=
  ⟨by decide, by decide, by decide, by decide,
    C1_load_staged_amended (fun _ => true) "d" "d/ann"
      (fun _ => Option.some ⟨[0, 0, 0], [0, 0, 0, 1]⟩) 2
      ["a", "ann"] ["a", "a"] (by decide) (by decide) (by decide) (by decide)⟩

/-! ## C7: unmatched files and the `not_found` count -/

/-- C7, counterexample.  The replacement loop appends eligible files before
the annotations are consulted, so an unmatched file can be staged for
counting twice: with listing `["a", "b"]` (`"b"` being the annotations
file), an empty mapping, `count = 2` and the replacement draw `"a"`, the
reported `not_found` is `2`, while only one eligible directory file is
absent from the mapping. -/
theorem C7_counterexample :
    (Dataset_load (fun _ => true) "d" "d/b" (fun _ => Option.none) 2
        ["a", "b"] ["a"]).notFound = 2 ∧
      List.countP
          (fun f => eligible (fun _ => true) "d" "d/b" f &&
            ((fun _ : String => (Option.none : Option BackgroundAnnotations)) f).isNone)
          ["a", "b"] = 1 := by decide

/-- C7, amended.  No filename without a matching annotation entry is ever
staged (every staged entry's pose comes from the mapping), and `not_found`
counts exactly the eligible, unmatched entries of the processed file list —
which is the directory listing itself whenever `count` is below the number
of directory entries, so that no replacement sampling occurs; with
replacement sampling, duplicated unmatched files are counted once per
occurrence (see the counterexample). -/
theorem C7_notFound_amended (isFile : String → Bool) (dir annPath : String)
    (ann : String → Option BackgroundAnnotations) (count : Nat)
    (listing choices : List String)
    (hnorep : count < listing.length) :
    (Dataset_load isFile dir annPath ann count listing choices).notFound =
        listing.countP
          (fun f => eligible isFile dir annPath f && (ann f).isNone) ∧
      ∀ img ∈ (Dataset_load isFile dir annPath ann count listing choices).staged,
        ∃ name, img.file = fullPath dir name ∧
          ann name = Option.some img.annotations := by
  have hle := extendFiles_no_extend isFile dir annPath count choices listing hnorep
  constructor
  · rw [Dataset_load, hle, stageFiles_notFound]
  · intro img hmem
    rw [Dataset_load, hle] at hmem
    obtain ⟨name, _, h2, h3⟩ :=
      stageFiles_pose isFile dir annPath ann listing img hmem
    exact ⟨name, h2, h3⟩

/-- C7, witness: listing `["a", "ann"]`, an empty mapping and `count = 1`:
no replacement occurs and `not_found` is exactly the one eligible unmatched
file. -/
theorem C7_notFound_amended_witness :
    1 < (["a", "ann"] : List String).length ∧
      ((Dataset_load (fun _ => true) "d" "d/ann"
            (fun _ => (Option.none : Option BackgroundAnnotations)) 1
            ["a", "ann"] []).notFound =
          List.countP
            (fun f => eligible (fun _ => true) "d" "d/ann" f &&
              ((fun _ : String => (Option.none : Option BackgroundAnnotations)) f).isNone)
            ["a", "ann"] ∧
        ∀ img ∈ (Dataset_load (fun _ => true) "d" "d/ann"
            (fun _ => (Option.none : Option BackgroundAnnotations)) 1
            ["a", "ann"] []).staged,
          ∃ name, img.file = fullPath "d" name ∧
            (Option.none : Option BackgroundAnnotations) =
              Option.some img.annotations) :=
  ⟨by decide,
    C7_notFound_amended (fun _ => true) "d" "d/ann"
      (fun _ => (Option.none : Option BackgroundAnnotations)) 1
      ["a", "ann"] [] (by decide)⟩

/-! ## C2: blur amount from the Laplacian variance -/

/-- C2, counterexample.  With variance `19` and threshold `20` the ratio is
`0.95`: the code replaces the ratio by `0.9` only when it exceeds `1`, so
`0.95` is not clamped and the returned strength is `0.05`, outside the
claimed range `[0.1, 1.0]`. -/
theorem C2_counterexample :
    get_blur_amount 19 20 = 1 / 20 ∧ ¬ ((1 : ℚ) / 10 ≤ get_blur_amount 19 20) := by
  constructor <;> norm_num [get_blur_amount]

/-- C2, amended.  The ratio `variance / threshold` is replaced by `0.9` only
when it exceeds `1` (ratios in `(0.9, 1]` are left alone), so the returned
strength is `1 - ratio` for ratios at most `1` and `0.1` for larger ratios;
for a nonnegative variance and positive threshold it lies in `[0, 1]`, and
can fall below `0.1` (see the counterexample). -/
theorem C2_blur_amount_amended (variance threshold : ℚ)
    (h0 : 0 ≤ variance) (hth : 0 < threshold) :
    (0 ≤ get_blur_amount variance threshold ∧
        get_blur_amount variance threshold ≤ 1) ∧
      get_blur_amount variance threshold =
        if 1 < variance / threshold then 1 / 10
        else 1 - variance / threshold := by
  have hr : 0 ≤ variance / threshold := div_nonneg h0 hth.le
  simp only [get_blur_amount, gt_iff_lt]
  by_cases h : 1 < variance / threshold
  · rw [if_pos h, if_pos h]
    norm_num
  · rw [if_neg h, if_neg h]
    push_neg at h
    refine ⟨⟨by linarith, by linarith⟩, rfl⟩

/-- C2, witness: variance `19`, threshold `20`. -/
theorem C2_blur_amount_amended_witness :
    ((0 : ℚ) ≤ 19 ∧ (0 : ℚ) < 20) ∧
      ((0 ≤ get_blur_amount 19 20 ∧ get_blur_amount 19 20 ≤ 1) ∧
        get_blur_amount 19 20 =
          if 1 < (19 : ℚ) / 20 then 1 / 10 else 1 - (19 : ℚ) / 20) :=
  ⟨⟨by norm_num, by norm_num⟩,
    C2_blur_amount_amended 19 20 (by norm_num) (by norm_num)⟩

/-! ## C3: coordinate rescaling -/

theorem pyint_of_nonneg {q : ℚ} (h : 0 ≤ q) : pyint q = ⌊q⌋ := if_pos h

theorem pyint_mono {q r : ℚ} (h : q ≤ r) : pyint q ≤ pyint r := by
  unfold pyint
  by_cases hq : 0 ≤ q
  · rw [if_pos hq, if_pos (le_trans hq h)]
    exact Int.floor_le_floor h
  · rw [if_neg hq]
    by_cases hr : 0 ≤ r
    · rw [if_pos hr]
      have h1 : ⌈q⌉ ≤ 0 := Int.ceil_le.mpr (by exact_mod_cast (not_le.mp hq).le)
      have h2 : 0 ≤ ⌊r⌋ := Int.floor_nonneg.mpr hr
      omega
    · rw [if_neg hr]
      exact Int.ceil_le_ceil h

/-- C3, counterexample.  `int()` truncates toward zero while the claim says
`floor`: at coordinate `-1` with background width `2` and output width `3`,
the code returns `int(-1.5) = -1`, but `floor(-1.5) = -2`. -/
theorem C3_counterexample :
    (scale_coordinates 2 2 (3, 3) (-1, -1)).1 = -1 ∧
      ⌊((-1 : ℚ) * 3 / 2)⌋ = -2 ∧ ((-1 : ℤ) ≠ -2) := by
  refine ⟨?_, ?_, by decide⟩
  · show pyint ((-1 : ℚ) * 3 / 2) = -1
    rw [pyint, if_neg (by norm_num)]
    rw [show ((-1 : ℚ) * 3 / 2) = -(3 / 2) by norm_num]
    rw [Int.ceil_eq_iff]
    norm_num
  · rw [show ((-1 : ℚ) * 3 / 2) = -(3 / 2) by norm_num]
    rw [Int.floor_eq_iff]
    norm_num

/-- C3, amended.  `scale_coordinates` applies Python's `int()`, i.e.
truncation toward zero, to `x*Wo/Wb` and `y*Ho/Hb`; this agrees with the
claimed floor exactly when the coordinates are nonnegative, and the map is
monotonic in each coordinate (for positive background and nonnegative output
resolutions).  On negative coordinates truncation differs from floor (see
the counterexample). -/
theorem C3_scale_coordinates_amended (Wb Hb Wo Ho x y x' y' : ℚ)
    (hWb : 0 < Wb) (hHb : 0 < Hb) (hWo : 0 ≤ Wo) (hHo : 0 ≤ Ho) :
    (0 ≤ x → 0 ≤ y →
        scale_coordinates Wb Hb (Wo, Ho) (x, y) =
          (⌊x * Wo / Wb⌋, ⌊y * Ho / Hb⌋)) ∧
      (x ≤ x' → (scale_coordinates Wb Hb (Wo, Ho) (x, y)).1 ≤
          (scale_coordinates Wb Hb (Wo, Ho) (x', y)).1) ∧
      (y ≤ y' → (scale_coordinates Wb Hb (Wo, Ho) (x, y)).2 ≤
          (scale_coordinates Wb Hb (Wo, Ho) (x, y')).2) := by
  refine ⟨fun hx hy => ?_, fun hxx => ?_, fun hyy => ?_⟩
  · unfold scale_coordinates
    rw [pyint_of_nonneg (by positivity), pyint_of_nonneg (by positivity)]
  · exact pyint_mono
      ((div_le_div_iff_of_pos_right hWb).mpr (mul_le_mul_of_nonneg_right hxx hWo))
  · exact pyint_mono
      ((div_le_div_iff_of_pos_right hHb).mpr (mul_le_mul_of_nonneg_right hyy hHo))

/-- C3, witness: background resolution `2×2`, output `3×3`, coordinates
`(0, 0)` and `(1, 1)`. -/
theorem C3_scale_coordinates_amended_witness :
    ((0 : ℚ) < 2 ∧ (0 : ℚ) < 2 ∧ (0 : ℚ) ≤ 3 ∧ (0 : ℚ) ≤ 3) ∧
      ((0 ≤ (0 : ℚ) → 0 ≤ (0 : ℚ) →
          scale_coordinates 2 2 (3, 3) (0, 0) =
            (⌊(0 : ℚ) * 3 / 2⌋, ⌊(0 : ℚ) * 3 / 2⌋)) ∧
        ((0 : ℚ) ≤ 1 → (scale_coordinates 2 2 (3, 3) (0, 0)).1 ≤
            (scale_coordinates 2 2 (3, 3) (1, 0)).1) ∧
        ((0 : ℚ) ≤ 1 → (scale_coordinates 2 2 (3, 3) (0, 0)).2 ≤
            (scale_coordinates 2 2 (3, 3) (0, 1)).2)) :=
  ⟨⟨by norm_num, by norm_num, by norm_num, by norm_num⟩,
    C3_scale_coordinates_amended 2 2 3 3 0 0 1 1
      (by norm_num) (by norm_num) (by norm_num) (by norm_num)⟩

/-! ## C4: sample ids under the two execution strategies -/

/-- C4 (code bug).  Sequentially, `run` calls `generate(i, projector)` for
`i = 0..count-1` and each emitted sample carries exactly that integer id, so
the sequential id multiset is `{0, ..., count-1}`.  But
`run_multi_threaded` hands `imap_unordered` tuples `(index, thread_index)`
that are passed to `generate` as its single argument, so every parallel
generation call raises `TypeError` (the `projector` parameter is missing)
and no sample id is ever emitted; the argument list is nonetheless as long
as `min count (count * nb_threads)`, so for positive `count` and
`nb_threads` at least one call is attempted and fails. -/
theorem C4_sample_ids (count nb_threads : Nat) :
    run_generate_results count =
        (List.range count).map (fun i => .ok (.int i)) ∧
      (∀ r ∈ run_multi_threaded_results count nb_threads,
        r = .error "TypeError: generate() missing 1 required positional argument") ∧
      (run_multi_threaded_results count nb_threads).length =
        min count (count * nb_threads) := by
  refine ⟨?_, ?_, ?_⟩
  · simp [run_generate_results, generate_call]
  · intro r hr
    simp only [run_multi_threaded_results, List.mem_map] at hr
    obtain ⟨a, _, rfl⟩ := hr
    rfl
  · simp [run_multi_threaded_results, run_multi_threaded_arg_list,
      List.length_zip, Nat.mul_comm]

/-- C4, witness: `count = 2`, `nb_threads = 1`: the sequential ids are
`[0, 1]`; both parallel calls fail with `TypeError` and there are
`min 2 (2*1) = 2` of them. -/
theorem C4_sample_ids_witness :
    run_generate_results 2 =
        (List.range 2).map (fun i => .ok (.int i)) ∧
      (∀ r ∈ run_multi_threaded_results 2 1,
        r = .error "TypeError: generate() missing 1 required positional argument") ∧
      (run_multi_threaded_results 2 1).length = min 2 (2 * 1) :=
  C4_sample_ids 2 1

/-! ## C5: sentinel handling in the persistence stage -/

/-- C5 (code bug).  `run` starts the writer as
`Thread(target=self.generated_dataset.save)`, calling `save` with no
`nb_threads` argument — a `TypeError`, so no persistence worker is spawned.
And `_save_one` itself loops only `while not self.data.empty()`, never
testing for the sentinel: on the queue produced by `run` (all samples
followed by the single `None`), a worker writes every sample and then dies
with `AttributeError` when it dequeues `None`, instead of observing the
sentinel and exiting cleanly. -/
theorem C5_persistence_sentinel :
    save_call [] =
        .error "TypeError: save() missing 1 required positional argument" ∧
      ∀ ids : List Nat,
        save_one (ids.map PyVal.int ++ [PyVal.none]) =
          (ids.map PyVal.int, WorkerExit.attributeError) := by
  refine ⟨rfl, ?_⟩
  intro ids
  induction ids with
  | nil => rfl
  | cons i ids ih => simp [save_one, ih]

/-! ## C6: exit code of the CLI -/

/-- C6 (code bug).  `DatasetFactory.__init__` runs
`if not self.background_dataset.load(...): sys.exit(1)`, but `Dataset.load`
returns `None` for every input, so the guard fires and the process exits
with code 1 even when loading succeeds; moreover the preceding call
`Dataset(args.dataset, args.seed)` already passes two positional arguments
to an `__init__` accepting only `path`, a `TypeError`. -/
theorem C6_exit_code :
    (∀ r : LoadResult, factory_init_exit r = .error 1) ∧
      dataset_init_call [.str "backgrounds", .none] =
        .error "TypeError: __init__() takes 2 positional arguments but 3 were given" :=
  ⟨fun _ => rfl, rfl⟩

/-! ## C9: motion-blur kernel selection -/

/-- Correlating with `np.identity(s) / s` averages the `s` pixels along the
main diagonal through the anchor. -/
theorem filter2D_np_identity (s : Nat) (img : Img) (x y : ℤ) :
    filter2D s (fun i j => np_identity i j / (s : ℚ)) img x y =
      (∑ d ∈ Finset.range s,
          img (x + d - (s / 2 : Nat)) (y + d - (s / 2 : Nat))) / (s : ℚ) := by
  unfold filter2D
  rw [Finset.sum_div]
  refine Finset.sum_congr rfl ?_
  intro i hi
  rw [Finset.sum_eq_single i]
  · show np_identity i i / (s : ℚ) * _ = _
    have hii : np_identity i i = 1 := by simp [np_identity]
    rw [hii, div_mul_eq_mul_div, one_mul]
  · intro b _ hbi
    simp [np_identity, (Ne.symm hbi)]
  · intro hnot
    exact absurd hi hnot

/-- C9.  The kernel size is selected by inclusive thresholds — `3` exactly
when the strength is at most `0.3`, `5` exactly when it lies in
`(0.3, 0.7]`, and `9` exactly when it exceeds `0.7` — and the blur replaces
each pixel by the `size`-pixel diagonal average through it (`np.identity(size)
/ size` correlated over the image), unless `no_blur` is set, in which case
the image is returned untouched. -/
theorem C9_motion_blur (no_blur : Bool) (amount : ℚ) (img : Img) (x y : ℤ) :
    ((blur_kernel_size amount = 3 ↔ amount ≤ 3 / 10) ∧
        (blur_kernel_size amount = 5 ↔ (3 / 10 < amount ∧ amount ≤ 7 / 10)) ∧
        (blur_kernel_size amount = 9 ↔ 7 / 10 < amount)) ∧
      apply_motion_blur no_blur amount img x y =
        if no_blur then img x y
        else
          (∑ d ∈ Finset.range (blur_kernel_size amount),
              img (x + d - (blur_kernel_size amount / 2 : Nat))
                (y + d - (blur_kernel_size amount / 2 : Nat))) /
            (blur_kernel_size amount : ℚ) := by
  constructor
  · unfold blur_kernel_size
    by_cases h1 : amount ≤ 3 / 10
    · rw [if_pos h1]
      refine ⟨iff_of_true rfl h1, ?_, ?_⟩
      · constructor
        · intro h; exact absurd h (by norm_num)
        · intro h; exact absurd h1 (not_le.mpr h.1)
      · constructor
        · intro h; exact absurd h (by norm_num)
        · intro h
          exact absurd h1 (not_le.mpr (lt_trans (by norm_num) h))
    · rw [if_neg h1]
      by_cases h2 : amount ≤ 7 / 10
      · rw [if_pos h2]
        refine ⟨?_, iff_of_true rfl ⟨not_le.mp h1, h2⟩, ?_⟩
        · constructor
          · intro h; exact absurd h (by norm_num)
          · intro h; exact absurd h h1
        · constructor
          · intro h; exact absurd h (by norm_num)
          · intro h; exact absurd h2 (not_le.mpr h)
      · rw [if_neg h2]
        refine ⟨?_, ?_, iff_of_true rfl (not_le.mp h2)⟩
        · constructor
          · intro h; exact absurd h (by norm_num)
          · intro h; exact absurd (le_trans h (by norm_num)) h2
        · constructor
          · intro h; exact absurd h (by norm_num)
          · intro h; exact absurd h.2 h2
  · unfold apply_motion_blur
    cases no_blur with
    | true => simp
    | false => simp [filter2D_np_identity]

/-! ## C10: in-place mutation and aliasing of the scaled bounding boxes -/

theorem scale_bbox_step_snd (bw bh : ℚ) (t : ℚ × ℚ) (h : Addr → ℚ × ℚ)
    (b : BBoxRef) : (scale_bbox_step bw bh t h b).2 = b := by
  unfold scale_bbox_step scale_coordinates_heap
  by_cases hc : b.class_id ≠ 2 <;> simp [hc]

theorem generate_scale_loop_snd (bw bh : ℚ) (t : ℚ × ℚ) :
    ∀ (bs : List BBoxRef) (h : Addr → ℚ × ℚ),
      (generate_scale_loop bw bh t h bs).2 = bs := by
  intro bs
  induction bs with
  | nil => intro h; rfl
  | cons b bs ih =>
    intro h
    simp [generate_scale_loop, scale_bbox_step_snd, ih]

/-- C10.  `scale_coordinates` overwrites indices 0 and 1 of its coordinate
object and returns that very object: the heap cell at the argument's address
afterwards holds the scaled integer values (the unscaled originals are gone)
and the returned reference is the argument's address.  Consequently the
rebinding in `generate` leaves every bounding box identical as a reference —
`scaled_bboxes` is the renderer's own list of bbox objects, now holding
scaled coordinates. -/
theorem C10_inplace_aliasing (bw bh : ℚ) (t : ℚ × ℚ) (h : Addr → ℚ × ℚ)
    (a : Addr) (b : BBoxRef) (bs : List BBoxRef) :
    (scale_coordinates_heap bw bh t h a).2 = a ∧
      (scale_coordinates_heap bw bh t h a).1 a =
        (((scale_coordinates bw bh t (h a)).1 : ℚ),
          ((scale_coordinates bw bh t (h a)).2 : ℚ)) ∧
      (scale_bbox_step bw bh t h b).2 = b ∧
      (generate_scale_loop bw bh t h bs).2 = bs :=
  ⟨rfl, by simp [scale_coordinates_heap],
    scale_bbox_step_snd bw bh t h b, generate_scale_loop_snd bw bh t bs h⟩

/-! ## C8: `parse_annotations` behaviour -/

/-- C8.  `parse_annotations` fails with the not-found error exactly when the
path is not a file; the first line is a header whose content is irrelevant;
a well-formed comma-separated line `filename, tx, ty, tz, qx, qy, qz, qw`
is parsed into a pose keyed by the stripped filename, with translation from
fields 1-3 and orientation from fields 4 onward, the numeric values being
accepted as-is — no further validation such as quaternion normalisation —
and a line with a malformed numeric field turns the whole parse into the
parse error. -/
theorem C8_parse_annotations (pf : String → Option ℚ)
    (header goodLine badLine : String) (name : String) (rest : List String)
    (t q : List ℚ) (lines : List String)
    (hsplit : pySplitComma goodLine = name :: rest)
    (ht : pyMapM pf (rest.take 3) = Option.some t)
    (hq : pyMapM pf (rest.drop 3) = Option.some q)
    (hbad : parseAnnotationLine pf badLine = Option.none) :
    parse_annotations pf false lines = .error .annotationsNotFound ∧
      (∀ h2 : String,
        parse_annotations pf true (header :: [goodLine, badLine]) =
          parse_annotations pf true (h2 :: [goodLine, badLine])) ∧
      parse_annotations pf true [header, goodLine] =
        .ok [(pyStrip name, ⟨t, q⟩)] ∧
      parse_annotations pf true [header, goodLine, badLine] =
        .error .parseError := by
  have hg : parseAnnotationLine pf goodLine =
      Option.some (pyStrip name, ⟨t, q⟩) := by
    unfold parseAnnotationLine
    rw [hsplit]
    simp [ht, hq]
  refine ⟨rfl, fun h2 => rfl, ?_, ?_⟩
  · simp [parse_annotations, pyMapM, hg]
  · simp [parse_annotations, pyMapM, hg, hbad]

/-- C8, witness: the table float-parser on the well-formed line
`img.png,1,2,3,4,5,6,7` and the malformed line `bad.png,x,2,3,4,5,6,7`. -/
theorem C8_parse_annotations_witness :
    (pySplitComma "img.png,1,2,3,4,5,6,7" =
        "img.png" :: ["1", "2", "3", "4", "5", "6", "7"] ∧
      pyMapM pfTable (["1", "2", "3", "4", "5", "6", "7"].take 3) =
        Option.some [1, 2, 3] ∧
      pyMapM pfTable (["1", "2", "3", "4", "5", "6", "7"].drop 3) =
        Option.some [4, 5, 6, 7] ∧
      parseAnnotationLine pfTable "bad.png,x,2,3,4,5,6,7" = Option.none) ∧
      (parse_annotations pfTable false [] = .error .annotationsNotFound ∧
        (∀ h2 : String,
          parse_annotations pfTable true
              ("frame,tx,ty,tz,qx,qy,qz,qw" ::
                ["img.png,1,2,3,4,5,6,7", "bad.png,x,2,3,4,5,6,7"]) =
            parse_annotations pfTable true
              (h2 :: ["img.png,1,2,3,4,5,6,7", "bad.png,x,2,3,4,5,6,7"])) ∧
        parse_annotations pfTable true
            ["frame,tx,ty,tz,qx,qy,qz,qw", "img.png,1,2,3,4,5,6,7"] =
          .ok [(pyStrip "img.png", ⟨[1, 2, 3], [4, 5, 6, 7]⟩)] ∧
        parse_annotations pfTable true
            ["frame,tx,ty,tz,qx,qy,qz,qw", "img.png,1,2,3,4,5,6,7",
              "bad.png,x,2,3,4,5,6,7"] = .error .parseError) :=
  ⟨⟨by decide, by decide, by decide, by decide⟩,
    C8_parse_annotations pfTable "frame,tx,ty,tz,qx,qy,qz,qw"
      "img.png,1,2,3,4,5,6,7" "bad.png,x,2,3,4,5,6,7" "img.png"
      ["1", "2", "3", "4", "5", "6", "7"] [1, 2, 3] [4, 5, 6, 7] []
      (by decide) (by decide) (by decide) (by decide)⟩
